import Mathlib

/-!
Shallow embedding of the SEO Analyzer tool (sources: `src/utils/seoAnalyzer.ts`,
`src/components/SeoAnalyzer.tsx`).

JavaScript strings are modelled as Lean `String`s; the JS string operations the
code uses (`trim`, `startsWith`, `includes`, `endsWith`, `split(/\s+/)`) are
given executable char-list implementations so that concrete instances evaluate
by `decide`.  Machine numbers are `Nat`/`Int` (all arithmetic in the program is
small and exact).  The network is modelled by an oracle mapping each proxy URL
to the outcome the single `axios.get` attempt to it would produce.
-/

/-! ### JS string primitives -/

/-- JS `String.prototype.trim`: strip leading and trailing whitespace. -/
def jsTrim (s : String) : String :=
  String.mk ((s.data.dropWhile Char.isWhitespace).reverse.dropWhile Char.isWhitespace).reverse

/-- JS `String.prototype.startsWith`. -/
def jsStartsWith (s pre : String) : Bool := pre.data.isPrefixOf s.data

/-- Contiguous-sublist test on char lists (helper for `jsIncludes`). -/
def containsSub (pat : List Char) : List Char → Bool
  | [] => pat.isEmpty
  | c :: rest => pat.isPrefixOf (c :: rest) || containsSub pat rest

/-- JS `String.prototype.includes`. -/
def jsIncludes (s pat : String) : Bool := containsSub pat.data s.data

/-- JS `String.prototype.endsWith`. -/
def jsEndsWith (s suf : String) : Bool := suf.data.isSuffixOf s.data

/-- JS string length (`.length`), modelled as the number of characters. -/
def jsLength (s : String) : Nat := s.data.length

/-- JS truthiness of a `string | undefined` value: `undefined` and `""` are falsy. -/
def jsFalsy : Option String → Bool
  | none => true
  | some s => s.data.isEmpty

/-- Number of maximal runs of non-whitespace characters; `inWord` records whether
the previous character was part of a word. Helper for `wordCountOf`. -/
def countRuns : List Char → Bool → Nat
  | [], _ => 0
  | c :: rest, inWord =>
    if Char.isWhitespace c then countRuns rest false
    else (if inWord then 0 else 1) + countRuns rest true

/-- Word count `$('body').text().trim().split(/\s+/).length`: JS `split(/\s+/)` on the empty
string yields `[""]` (length 1); on a trimmed non-empty string it yields exactly
the maximal non-whitespace runs. -/
def wordCountOf (bodyText : String) : Nat :=
  let t := jsTrim bodyText
  if t.data.isEmpty then 1 else countRuns t.data false

/-! ### Errors and the network model -/

/-- The parts of an axios error that `analyzeSeo`'s catch block inspects. -/
structure AxiosError where
  code : Option String
  status : Option Nat
  message : String
deriving DecidableEq, Repr

/-- A thrown JS error: either an axios error or any other `Error` (identified by
its message). -/
inductive JsError where
  | axios (e : AxiosError)
  | other (message : String)
deriving DecidableEq, Repr

/-- Outcome of one `axios.get` attempt: a throw, or a response whose `data`
body is the given string. -/
inductive FetchOutcome where
  | err (e : JsError)
  | ok (data : String)
deriving DecidableEq, Repr

/-- An attempt fails to produce a usable body: it throws, or its body is falsy
(empty). -/
def attemptFailed : FetchOutcome → Bool
  | .err _ => true
  | .ok d => d.data.isEmpty

/-- The attempt throws. -/
def isErrOutcome : FetchOutcome → Bool
  | .err _ => true
  | .ok _ => false

/-! ### `encodeURIComponent` and the proxy list -/

/-- Upper-case hex digit of a value below 16. -/
def hexDigit (n : Nat) : Char :=
  if n < 10 then Char.ofNat (48 + n) else Char.ofNat (55 + n)

/-- UTF-8 bytes of one character (as `Nat`s below 256). -/
def utf8Bytes (c : Char) : List Nat :=
  let n := c.toNat
  if n < 128 then [n]
  else if n < 2048 then [192 + n / 64, 128 + n % 64]
  else if n < 65536 then [224 + n / 4096, 128 + (n / 64) % 64, 128 + n % 64]
  else [240 + n / 262144, 128 + (n / 4096) % 64, 128 + (n / 64) % 64, 128 + n % 64]

/-- Characters `encodeURIComponent` leaves unescaped: alphanumerics and
`- _ . ! ~ * ' ( )` (code points 45, 95, 46, 33, 126, 42, 39, 40, 41). -/
def isUnescapedChar (c : Char) : Bool :=
  c.isAlphanum || c.toNat = 45 || c.toNat = 95 || c.toNat = 46 || c.toNat = 33 ||
  c.toNat = 126 || c.toNat = 42 || c.toNat = 39 || c.toNat = 40 || c.toNat = 41

/-- Percent-encoding of one character's UTF-8 bytes. -/
def pctEncodeChar (c : Char) : List Char :=
  (utf8Bytes c).flatMap (fun b => [Char.ofNat 37, hexDigit (b / 16), hexDigit (b % 16)])

/-- The JS builtin `encodeURIComponent`. -/
def encodeURIComponent (s : String) : String :=
  String.mk (s.data.flatMap (fun c => if isUnescapedChar c then [c] else pctEncodeChar c))

/-- The static proxy URL templates, in source order. -/
def PROXY_SERVICES : List (String → String) :=
  [ fun url => "https://api.allorigins.win/raw?url=" ++ encodeURIComponent url,
    fun url => "https://corsproxy.io/?" ++ encodeURIComponent url,
    fun url => "https://api.codetabs.com/v1/proxy?quest=" ++ encodeURIComponent url ]

/-- The proxy URL the `i`-th attempt requests for `url` (empty past the end). -/
def proxyUrlAt (url : String) (i : Nat) : String :=
  (PROXY_SERVICES.map (fun p => p url)).getD i ""

/-! ### `fetchWithFallback` -/

/-- One pass of `fetchWithFallback`'s `for` loop over the remaining proxy URLs,
carrying `lastError`.  Returns the trace of proxy URLs actually requested (in
order) together with the result: the first non-empty body, or the thrown error
(`lastError` if any attempt threw, else `Error('All proxy services failed')`). -/
def fetchGo (oracle : String → FetchOutcome) (lastError : Option JsError) :
    List String → List String × Except JsError String
  | [] => ([], .error (lastError.getD (.other "All proxy services failed")))
  | p :: rest =>
    match oracle p with
    | .ok d =>
      if d.data.isEmpty then
        let r := fetchGo oracle lastError rest
        (p :: r.1, r.2)
      else ([p], .ok d)
    | .err e =>
      let r := fetchGo oracle (some e) rest
      (p :: r.1, r.2)

/-- The function `fetchWithFallback(url)`: try the proxies of `PROXY_SERVICES` in order. -/
def fetchWithFallback (oracle : String → FetchOutcome) (url : String) :
    List String × Except JsError String :=
  fetchGo oracle none (PROXY_SERVICES.map (fun p => p url))

/-! ### The parsed document -/

/-- An `img` element: the attributes the analyzer reads. -/
structure ImgEl where
  alt : Option String
  src : Option String
deriving DecidableEq, Repr

/-- An `a` element: the attribute the analyzer reads. -/
structure AEl where
  href : Option String
deriving DecidableEq, Repr

/-- The projections of the cheerio-parsed DOM that `analyzeSeo` queries:
`$('title').text()`, the `content`/`href`/`charset` attributes of the various
`meta`/`link` selectors (absent attributes are `none`), the sizes of the
element selections it only counts, and the `img`/`a` element lists it filters. -/
structure ParsedDoc where
  titleText : String
  description : Option String
  keywords : Option String
  robots : Option String
  canonical : Option String
  viewport : Option String
  charset : Option String
  ogTagCount : Nat
  twitterTagCount : Nat
  h1Count : Nat
  images : List ImgEl
  links : List AEl
  paragraphCount : Nat
  bodyText : String
  headingCount : Nat
  listCount : Nat
  tableCount : Nat
  iframeCount : Nat
  cssFileCount : Nat
  jsFileCount : Nat
  inlineStyleCount : Nat
  inlineScriptCount : Nat
deriving Repr

/-! ### The heuristic checks -/

/-- The counter `images.filter((_, el) => !$(el).attr('alt')).length`. -/
def imagesWithoutAltOf (d : ParsedDoc) : Nat :=
  (d.images.filter (fun i => jsFalsy i.alt)).length

/-- One link's external-link test: `href.startsWith('http') && !href.includes(url)`
with `href` defaulting to the empty string. -/
def isExternalLink (url : String) (a : AEl) : Bool :=
  let href := a.href.getD ""
  jsStartsWith href "http" && !(jsIncludes href url)

/-- Number of external links. -/
def externalLinksOf (d : ParsedDoc) (url : String) : Nat :=
  (d.links.filter (isExternalLink url)).length

/-- One image's large-image test: `src` ends in `.jpg`, `.png` or `.gif`,
with `src` defaulting to the empty string. -/
def isLargeImage (img : ImgEl) : Bool :=
  let src := img.src.getD ""
  jsEndsWith src ".jpg" || jsEndsWith src ".png" || jsEndsWith src ".gif"

/-- Number of large images. -/
def largeImagesOf (d : ParsedDoc) : Nat :=
  (d.images.filter isLargeImage).length

/-- The Meta Tags Analysis block: each `metaIssues.push` of the source becomes
a conditional singleton, concatenated in source order. -/
def metaIssuesOf (d : ParsedDoc) : List String :=
  let title := jsTrim d.titleText
  let description := d.description.map jsTrim
  (if title.data.isEmpty then ["Missing title tag"]
   else if jsLength title < 30 then ["Title is too short (should be at least 30 characters)"]
   else if jsLength title > 60 then ["Title is too long (should be less than 60 characters)"]
   else [])
  ++ (if jsFalsy description then ["Missing meta description"]
      else if jsLength (description.getD "") < 120 then
        ["Meta description is too short (should be at least 120 characters)"]
      else if jsLength (description.getD "") > 160 then
        ["Meta description is too long (should be less than 160 characters)"]
      else [])
  ++ (if jsFalsy (d.keywords.map jsTrim) then ["Missing meta keywords"] else [])
  ++ (if jsFalsy (d.robots.map jsTrim) then ["Missing robots meta tag"] else [])
  ++ (if jsFalsy (d.canonical.map jsTrim) then ["Missing canonical URL"] else [])
  ++ (if jsFalsy (d.viewport.map jsTrim) then ["Missing viewport meta tag"] else [])
  ++ (if jsFalsy (d.charset.map jsTrim) then ["Missing charset meta tag"] else [])
  ++ (if d.ogTagCount = 0 then ["Missing Open Graph tags"] else [])
  ++ (if d.twitterTagCount = 0 then ["Missing Twitter Card tags"] else [])

/-- The Content Analysis block, in source order. -/
def contentIssuesOf (d : ParsedDoc) (url : String) : List String :=
  let imagesWithoutAlt := imagesWithoutAltOf d
  let externalLinks := externalLinksOf d url
  let wordCount := wordCountOf d.bodyText
  (if d.h1Count = 0 then ["Missing H1 heading"] else [])
  ++ (if d.h1Count > 1 then ["Multiple H1 headings detected (should have exactly one)"] else [])
  ++ (if imagesWithoutAlt > 0 then
        [toString imagesWithoutAlt ++ " images missing alt text"] else [])
  ++ (if externalLinks = 0 then
        ["No external links found (consider adding relevant outbound links)"] else [])
  ++ (if wordCount < 300 then
        ["Content length is too short (should be at least 300 words)"] else [])
  ++ (if d.paragraphCount < 3 then
        ["Too few paragraphs (should have at least 3 paragraphs)"] else [])
  ++ (if d.headingCount < 2 then
        ["Too few headings (should use proper heading hierarchy)"] else [])
  ++ (if d.listCount = 0 then
        ["No lists found (consider using bullet points or numbered lists)"] else [])
  ++ (if d.tableCount = 0 then
        ["No tables found (consider using tables for structured data)"] else [])

/-- The Performance Analysis block, in source order. -/
def performanceIssuesOf (d : ParsedDoc) : List String :=
  let largeImages := largeImagesOf d
  (if d.cssFileCount > 5 then
     ["High number of CSS files (" ++ toString d.cssFileCount ++ " found, recommend combining)"]
   else [])
  ++ (if d.jsFileCount > 10 then
        ["High number of JavaScript files (" ++ toString d.jsFileCount ++ " found, recommend combining)"]
      else [])
  ++ (if d.inlineStyleCount > 5 then
        [toString d.inlineStyleCount ++ " inline styles found (recommend using external CSS)"]
      else [])
  ++ (if d.inlineScriptCount > 5 then
        [toString d.inlineScriptCount ++ " inline scripts found (recommend using external JS files)"]
      else [])
  ++ (if largeImages > 10 then
        [toString largeImages ++ " large images found (recommend optimizing)"]
      else [])
  ++ (if d.iframeCount > 2 then
        [toString d.iframeCount ++ " iframes found (consider reducing for better performance)"]
      else [])

/-- The analysis result returned on success. -/
structure SeoAnalysisResult where
  metaScore : Int
  metaIssues : List String
  contentScore : Int
  contentIssues : List String
  performanceScore : Int
  performanceIssues : List String
deriving DecidableEq, Repr

/-- The analysis phase of `analyzeSeo`: all heuristic checks and the score
computation, given the parsed document of the fetched HTML. -/
def analyzeChecks (d : ParsedDoc) (url : String) : SeoAnalysisResult :=
  let metaIssues := metaIssuesOf d
  let contentIssues := contentIssuesOf d url
  let performanceIssues := performanceIssuesOf d
  { metaScore := max 0 (100 - (metaIssues.length : Int) * 10)
    metaIssues := metaIssues
    contentScore := max 0 (100 - (contentIssues.length : Int) * 8)
    contentIssues := contentIssues
    performanceScore := max 0 (100 - (performanceIssues.length : Int) * 8)
    performanceIssues := performanceIssues }

/-- The catch block of `analyzeSeo`: the message of the `Error` it rethrows. -/
def mapCaughtError : JsError → String
  | .axios e =>
    if e.code = some "ECONNABORTED" then
      "Request timed out. Please try again or check if the website is accessible."
    else if e.status = some 404 then
      "Website not found. Please check if the URL is correct."
    else if e.status = some 403 then
      "Access denied. The website might be blocking automated requests."
    else "Unable to analyze website: " ++ e.message
  | .other _ =>
    "Failed to analyze website. Please check your internet connection and try again."

/-- The function `analyzeSeo(url)`: fetch through the fallback chain, parse (`parse` stands
for `cheerio.load`), run the checks; a thrown error is rewritten by the catch
block and rethrown. -/
def analyzeSeo (oracle : String → FetchOutcome) (parse : String → ParsedDoc)
    (url : String) : Except String SeoAnalysisResult :=
  match (fetchWithFallback oracle url).2 with
  | .error e => .error (mapCaughtError e)
  | .ok html => .ok (analyzeChecks (parse html) url)

/-! ### The UI handler -/

/-- The component state `handleAnalysis` reads and writes. -/
structure UiState where
  url : String
  results : Option SeoAnalysisResult
  loading : Bool
  error : String

/-- The handler `handleAnalysis`: the URL-scheme guard, then the analyze call; the returned
`Bool` records whether `analyzeSeo` was invoked.  On the guard path only the
error message changes; otherwise `loading` ends `false`, and the
success/failure branches set `results`/`error` as the source's state updates
do. -/
def handleAnalysis (analyze : String → Except String SeoAnalysisResult)
    (s : UiState) : UiState × Bool :=
  if !(jsStartsWith s.url "http://") && !(jsStartsWith s.url "https://") then
    ({ s with error := "Please enter a valid URL starting with http:// or https://" }, false)
  else
    match analyze s.url with
    | .ok r => ({ s with loading := false, error := "", results := some r }, true)
    | .error e => ({ s with loading := false, error := e, results := none }, true)

/-! ### Lemmas about the fallback loop -/

/-- The error `lastError` holds after scanning `ps`: the last thrown error, or
the initial value if no attempt in `ps` throws. -/
def lastThrownError (oracle : String → FetchOutcome) (le : Option JsError) :
    List String → Option JsError
  | [] => le
  | p :: rest =>
    match oracle p with
    | .err e => lastThrownError oracle (some e) rest
    | .ok _ => lastThrownError oracle le rest

lemma fetchGo_trace_take (oracle : String → FetchOutcome) :
    ∀ (ps : List String) (le : Option JsError),
      ∃ k ≤ ps.length, (fetchGo oracle le ps).1 = ps.take k := by
  intro ps
  induction ps with
  | nil => exact fun _ => ⟨0, by omega, rfl⟩
  | cons p rest ih =>
    intro le
    cases ho : oracle p with
    | ok d =>
      by_cases hd : d.data.isEmpty
      · obtain ⟨k, hk, htr⟩ := ih le
        exact ⟨k + 1, by simpa using hk, by simp [fetchGo, ho, hd, htr]⟩
      · exact ⟨1, by simp, by simp [fetchGo, ho, hd]⟩
    | err e =>
      obtain ⟨k, hk, htr⟩ := ih (some e)
      exact ⟨k + 1, by simpa using hk, by simp [fetchGo, ho, htr]⟩

lemma fetchGo_ok_first (oracle : String → FetchOutcome) :
    ∀ (ps : List String) (le : Option JsError) (d : String),
      (fetchGo oracle le ps).2 = .ok d →
      ∃ i < ps.length, oracle (ps.getD i "") = .ok d ∧ d.data.isEmpty = false ∧
        (∀ j < i, attemptFailed (oracle (ps.getD j "")) = true) ∧
        (fetchGo oracle le ps).1 = ps.take (i + 1) := by
  intro ps
  induction ps with
  | nil => intro le d h; simp [fetchGo] at h
  | cons p rest ih =>
    intro le d h
    cases ho : oracle p with
    | ok d0 =>
      by_cases hd : d0.data.isEmpty
      · simp only [fetchGo, ho, hd, if_pos] at h
        obtain ⟨i, hi, hoi, hdne, hprev, htr⟩ := ih le d h
        refine ⟨i + 1, by simpa using hi, by simpa using hoi, hdne, ?_, ?_⟩
        · intro j hj
          cases j with
          | zero => simp [attemptFailed, ho, hd]
          | succ j' => simpa using hprev j' (by omega)
        · simp [fetchGo, ho, hd, htr]
      · simp only [fetchGo, ho, hd, if_neg, Bool.false_eq_true, not_false_iff,
          Except.ok.injEq] at h
        subst h
        refine ⟨0, by simp, by simpa using ho, by simpa using hd,
          by intro j hj; omega, ?_⟩
        simp [fetchGo, ho, hd]
    | err e =>
      simp only [fetchGo, ho] at h
      obtain ⟨i, hi, hoi, hdne, hprev, htr⟩ := ih (some e) d h
      refine ⟨i + 1, by simpa using hi, by simpa using hoi, hdne, ?_, ?_⟩
      · intro j hj
        cases j with
        | zero => simp [attemptFailed, ho]
        | succ j' => simpa using hprev j' (by omega)
      · simp [fetchGo, ho, htr]

lemma fetchGo_all_fail_trace (oracle : String → FetchOutcome) :
    ∀ (ps : List String) (le : Option JsError),
      (∀ i < ps.length, attemptFailed (oracle (ps.getD i "")) = true) →
      (fetchGo oracle le ps).1 = ps := by
  intro ps
  induction ps with
  | nil => intro le _; rfl
  | cons p rest ih =>
    intro le hfail
    have h0 := hfail 0 (by simp)
    cases ho : oracle p with
    | ok d =>
      have hd : d.data.isEmpty = true := by simpa [attemptFailed, ho] using h0
      have := ih le (fun i hi => by simpa using hfail (i + 1) (by simpa using hi))
      simp [fetchGo, ho, hd, this]
    | err e =>
      have := ih (some e) (fun i hi => by simpa using hfail (i + 1) (by simpa using hi))
      simp [fetchGo, ho, this]

lemma fetchGo_all_fail_error (oracle : String → FetchOutcome) :
    ∀ (ps : List String) (le : Option JsError),
      (∀ i < ps.length, attemptFailed (oracle (ps.getD i "")) = true) →
      (fetchGo oracle le ps).2 =
        .error ((lastThrownError oracle le ps).getD (.other "All proxy services failed")) := by
  intro ps
  induction ps with
  | nil => intro le _; rfl
  | cons p rest ih =>
    intro le hfail
    have h0 := hfail 0 (by simp)
    cases ho : oracle p with
    | ok d =>
      have hd : d.data.isEmpty = true := by simpa [attemptFailed, ho] using h0
      have := ih le (fun i hi => by simpa using hfail (i + 1) (by simpa using hi))
      simp [fetchGo, ho, hd, this, lastThrownError]
    | err e =>
      have := ih (some e) (fun i hi => by simpa using hfail (i + 1) (by simpa using hi))
      simp [fetchGo, ho, this, lastThrownError]

lemma lastThrownError_no_err (oracle : String → FetchOutcome) :
    ∀ (ps : List String) (le : Option JsError),
      (∀ i < ps.length, isErrOutcome (oracle (ps.getD i "")) = false) →
      lastThrownError oracle le ps = le := by
  intro ps
  induction ps with
  | nil => intro le _; rfl
  | cons p rest ih =>
    intro le hne
    have h0 := hne 0 (by simp)
    cases ho : oracle p with
    | ok d =>
      have := ih le (fun i hi => by simpa using hne (i + 1) (by simpa using hi))
      simp [lastThrownError, ho, this]
    | err e => simp [isErrOutcome, ho] at h0

lemma lastThrownError_last (oracle : String → FetchOutcome) :
    ∀ (ps : List String) (le : Option JsError) (i : Nat) (e : JsError),
      i < ps.length → oracle (ps.getD i "") = .err e →
      (∀ j, i < j → j < ps.length → isErrOutcome (oracle (ps.getD j "")) = false) →
      lastThrownError oracle le ps = some e := by
  intro ps
  induction ps with
  | nil => intro le i e hi _ _; simp at hi
  | cons p rest ih =>
    intro le i e hi hoi hafter
    cases i with
    | zero =>
      have hp : oracle p = .err e := by simpa using hoi
      have hrest : ∀ j < rest.length, isErrOutcome (oracle (rest.getD j "")) = false := by
        intro j hj
        simpa using hafter (j + 1) (by omega) (by simpa using hj)
      simp [lastThrownError, hp, lastThrownError_no_err oracle rest (some e) hrest]
    | succ i' =>
      have hoi' : oracle (rest.getD i' "") = .err e := by simpa using hoi
      have hafter' : ∀ j, i' < j → j < rest.length → isErrOutcome (oracle (rest.getD j "")) = false := by
        intro j h1 h2
        simpa using hafter (j + 1) (by omega) (by simpa using h2)
      cases ho : oracle p with
      | ok d => simp [lastThrownError, ho, ih le i' e (by simpa using hi) hoi' hafter']
      | err e0 => simp [lastThrownError, ho, ih (some e0) i' e (by simpa using hi) hoi' hafter']

lemma fetchGo_trace_head (oracle : String → FetchOutcome) (p : String)
    (rest : List String) (le : Option JsError) :
    (fetchGo oracle le (p :: rest)).1.head? = some p := by
  cases ho : oracle p with
  | ok d =>
    by_cases hd : d.data.isEmpty <;> simp [fetchGo, ho, hd]
  | err e => simp [fetchGo, ho]

/-! ### Concrete network oracles (used by witnesses) -/

/-- Every proxy attempt succeeds with a fixed page. -/
def oracleAlwaysOk : String → FetchOutcome := fun _ => .ok "<html></html>"

/-- Every proxy attempt throws. -/
def oracleAlwaysErr : String → FetchOutcome := fun _ => .err (.other "Network Error")

/-- Every proxy attempt responds without error but with an empty body. -/
def oracleAlwaysEmpty : String → FetchOutcome := fun _ => .ok ""

/-- A document with nothing in it (used to instantiate `parse`). -/
def emptyDoc : ParsedDoc :=
  ⟨"", none, none, none, none, none, none, 0, 0, 0, [], [], 0, "", 0, 0, 0, 0, 0, 0, 0, 0⟩

/-! ### C2 -/

/-- Claim C2: for every URL, `fetchWithFallback` attempts the proxies strictly
sequentially in the order of the static 3-element `PROXY_SERVICES` list — its
request trace is always a prefix of the proxy-URL list, hence at most one
attempt per proxy — and it returns the body of the first attempt that succeeds
with non-empty data, having attempted exactly the proxies up to and including
that one and none after it. -/
theorem fetchWithFallback_sequential_first_success (oracle : String → FetchOutcome)
    (url : String) :
    (∃ k ≤ 3, (fetchWithFallback oracle url).1
        = (PROXY_SERVICES.map (fun p => p url)).take k) ∧
    ∀ d, (fetchWithFallback oracle url).2 = .ok d →
      ∃ i < 3, oracle (proxyUrlAt url i) = .ok d ∧ d.data.isEmpty = false ∧
        (∀ j < i, attemptFailed (oracle (proxyUrlAt url j)) = true) ∧
        (fetchWithFallback oracle url).1
          = (PROXY_SERVICES.map (fun p => p url)).take (i + 1) := by
  have hlen : (PROXY_SERVICES.map (fun p => p url)).length = 3 := by
    simp [PROXY_SERVICES]
  constructor
  · obtain ⟨k, hk, htr⟩ :=
      fetchGo_trace_take oracle (PROXY_SERVICES.map (fun p => p url)) none
    exact ⟨k, hlen ▸ hk, htr⟩
  · intro d h
    obtain ⟨i, hi, h1, h2, h3, h4⟩ := fetchGo_ok_first oracle _ none d h
    exact ⟨i, hlen ▸ hi, h1, h2, h3, h4⟩

/-- Witness for C2 at a concrete oracle and URL. -/
theorem fetchWithFallback_sequential_first_success_witness :
    ∃ i < 3, oracleAlwaysOk (proxyUrlAt "https://a.com" i) = .ok "<html></html>" ∧
      ("<html></html>" : String).data.isEmpty = false ∧
      (∀ j < i, attemptFailed (oracleAlwaysOk (proxyUrlAt "https://a.com" j)) = true) ∧
      (fetchWithFallback oracleAlwaysOk "https://a.com").1
        = (PROXY_SERVICES.map (fun p => p "https://a.com")).take (i + 1) :=
  (fetchWithFallback_sequential_first_success oracleAlwaysOk "https://a.com").2
    "<html></html>" (by rfl)

/-! ### C3 -/

/-- Claim C3: if all three proxy attempts fail, `fetchWithFallback` throws —
the error of the last attempt that threw when one was caught, otherwise
`Error('All proxy services failed')` — and consequently `analyzeSeo` rejects
with an error and never resolves to a result object for that call. -/
theorem analyzeSeo_all_fail_rejects (oracle : String → FetchOutcome)
    (parse : String → ParsedDoc) (url : String)
    (hfail : ∀ i < 3, attemptFailed (oracle (proxyUrlAt url i)) = true) :
    ∃ E, (fetchWithFallback oracle url).2 = .error E ∧
      analyzeSeo oracle parse url = .error (mapCaughtError E) ∧
      (∀ r, analyzeSeo oracle parse url ≠ .ok r) ∧
      ((∀ i < 3, isErrOutcome (oracle (proxyUrlAt url i)) = false) →
        E = .other "All proxy services failed") ∧
      (∀ i e, i < 3 → oracle (proxyUrlAt url i) = .err e →
        (∀ j, i < j → j < 3 → isErrOutcome (oracle (proxyUrlAt url j)) = false) →
        E = e) := by
  have hlen : (PROXY_SERVICES.map (fun p => p url)).length = 3 := by
    simp [PROXY_SERVICES]
  have herr := fetchGo_all_fail_error oracle (PROXY_SERVICES.map (fun p => p url)) none
    (fun i hi => hfail i (hlen ▸ hi))
  have hfe : (fetchWithFallback oracle url).2 =
      .error ((lastThrownError oracle none (PROXY_SERVICES.map (fun p => p url))).getD
        (.other "All proxy services failed")) := herr
  have han : analyzeSeo oracle parse url =
      .error (mapCaughtError ((lastThrownError oracle none
        (PROXY_SERVICES.map (fun p => p url))).getD (.other "All proxy services failed"))) := by
    simp [analyzeSeo, hfe]
  refine ⟨_, hfe, han, ?_, ?_, ?_⟩
  · intro r
    simp [han]
  · intro hne
    rw [lastThrownError_no_err oracle (PROXY_SERVICES.map (fun p => p url)) none
      (fun i hi => hne i (hlen ▸ hi))]
    rfl
  · intro i e hi hei hafter
    have hi' : i < (PROXY_SERVICES.map (fun p => p url)).length := by rw [hlen]; exact hi
    have hei' : oracle ((PROXY_SERVICES.map (fun p => p url)).getD i "") = .err e := hei
    have hafter' : ∀ j, i < j → j < (PROXY_SERVICES.map (fun p => p url)).length →
        isErrOutcome (oracle ((PROXY_SERVICES.map (fun p => p url)).getD j "")) = false := by
      intro j h1 h2
      exact hafter j h1 (by rw [hlen] at h2; exact h2)
    rw [lastThrownError_last oracle (PROXY_SERVICES.map (fun p => p url)) none i e
      hi' hei' hafter']
    rfl

/-- Witness for C3: every proxy attempt throws a network error. -/
theorem analyzeSeo_all_fail_rejects_witness :
    ∃ E, (fetchWithFallback oracleAlwaysErr "https://a.com").2 = .error E ∧
      analyzeSeo oracleAlwaysErr (fun _ => emptyDoc) "https://a.com"
        = .error (mapCaughtError E) ∧
      (∀ r, analyzeSeo oracleAlwaysErr (fun _ => emptyDoc) "https://a.com" ≠ .ok r) ∧
      ((∀ i < 3, isErrOutcome (oracleAlwaysErr (proxyUrlAt "https://a.com" i)) = false) →
        E = .other "All proxy services failed") ∧
      (∀ i e, i < 3 → oracleAlwaysErr (proxyUrlAt "https://a.com" i) = .err e →
        (∀ j, i < j → j < 3 →
          isErrOutcome (oracleAlwaysErr (proxyUrlAt "https://a.com" j)) = false) →
        E = e) :=
  analyzeSeo_all_fail_rejects oracleAlwaysErr (fun _ => emptyDoc) "https://a.com"
    (fun _ _ => rfl)

/-! ### C9 -/

/-- Claim C9: a proxy response that arrives without error but with an empty
(falsy) body is treated as a failure — the loop moves on to the next proxy, so
when every proxy responds with empty data and none throws, all three proxies
are attempted and the call throws `Error('All proxy services failed')` instead
of returning the empty body. -/
theorem fetchWithFallback_empty_body_failure (oracle : String → FetchOutcome)
    (url : String)
    (hempty : ∀ i < 3, ∃ di, oracle (proxyUrlAt url i) = .ok di ∧ di.data.isEmpty = true) :
    (fetchWithFallback oracle url).1 = PROXY_SERVICES.map (fun p => p url) ∧
    (fetchWithFallback oracle url).2 = .error (.other "All proxy services failed") := by
  have hlen : (PROXY_SERVICES.map (fun p => p url)).length = 3 := by
    simp [PROXY_SERVICES]
  have hfail : ∀ i < (PROXY_SERVICES.map (fun p => p url)).length,
      attemptFailed (oracle ((PROXY_SERVICES.map (fun p => p url)).getD i "")) = true := by
    intro i hi
    obtain ⟨di, hdi, hde⟩ := hempty i (by rw [hlen] at hi; exact hi)
    show attemptFailed (oracle (proxyUrlAt url i)) = true
    simp [attemptFailed, hdi, hde]
  have hne : ∀ i < (PROXY_SERVICES.map (fun p => p url)).length,
      isErrOutcome (oracle ((PROXY_SERVICES.map (fun p => p url)).getD i "")) = false := by
    intro i hi
    obtain ⟨di, hdi, _⟩ := hempty i (by rw [hlen] at hi; exact hi)
    show isErrOutcome (oracle (proxyUrlAt url i)) = false
    simp [isErrOutcome, hdi]
  refine ⟨fetchGo_all_fail_trace oracle _ none hfail, ?_⟩
  have herr := fetchGo_all_fail_error oracle (PROXY_SERVICES.map (fun p => p url)) none hfail
  rw [lastThrownError_no_err oracle _ none hne] at herr
  exact herr

/-- Witness for C9: every proxy responds with an empty body. -/
theorem fetchWithFallback_empty_body_failure_witness :
    (fetchWithFallback oracleAlwaysEmpty "https://a.com").1
      = PROXY_SERVICES.map (fun p => p "https://a.com") ∧
    (fetchWithFallback oracleAlwaysEmpty "https://a.com").2
      = .error (.other "All proxy services failed") :=
  fetchWithFallback_empty_body_failure oracleAlwaysEmpty "https://a.com"
    (fun _ _ => ⟨"", rfl, rfl⟩)

/-! ### C7 -/

/-- Counterexample for claim C7 (rotation of the starting proxy): the program
keeps no rotation state, so a later call — here one whose three attempts all
throw — still requests the first proxy of `PROXY_SERVICES` first; its first
attempt is not the rotated-to second proxy. -/
theorem fetch_rotation_counterexample :
    ¬ ((fetchWithFallback oracleAlwaysErr "https://a.com").1.head?
        = some (proxyUrlAt "https://a.com" 1)) := by
  decide

/-- Claim C7 amended: calls to `fetchWithFallback` do not rotate their starting
proxy — every call, whatever the oracle and URL, requests the first proxy of
the static `PROXY_SERVICES` list first; the proxies only rotate in the sense
of sequential fallback within a single call. -/
theorem fetchWithFallback_always_starts_first (oracle : String → FetchOutcome)
    (url : String) :
    (fetchWithFallback oracle url).1.head? = some (proxyUrlAt url 0) := by
  show (fetchGo oracle none (PROXY_SERVICES.map (fun p => p url))).1.head? = _
  simp only [PROXY_SERVICES, List.map]
  rw [fetchGo_trace_head]
  rfl

/-! ### Bounds on the issue lists -/

set_option maxHeartbeats 1000000

lemma metaIssuesOf_length_le (d : ParsedDoc) : (metaIssuesOf d).length ≤ 9 := by
  simp only [metaIssuesOf]
  split_ifs <;> simp

lemma contentIssuesOf_length_le (d : ParsedDoc) (url : String) :
    (contentIssuesOf d url).length ≤ 8 := by
  simp only [contentIssuesOf]
  split_ifs <;> first | (simp; done) | (exfalso; omega)

lemma performanceIssuesOf_length_le (d : ParsedDoc) :
    (performanceIssuesOf d).length ≤ 6 := by
  simp only [performanceIssuesOf]
  split_ifs <;> simp

/-! ### C1 -/

/-- Claim C1: each dimension's score is exactly 100 minus the fixed
per-dimension penalty times the number of triggered issues — 10 per meta
issue, 8 per content issue, 8 per performance issue (the `Math.max(0, ·)`
clamp never binds, since the issue counts are bounded). -/
theorem analyzeChecks_score_formula (d : ParsedDoc) (url : String) :
    (analyzeChecks d url).metaScore
        = 100 - ((analyzeChecks d url).metaIssues.length : Int) * 10 ∧
    (analyzeChecks d url).contentScore
        = 100 - ((analyzeChecks d url).contentIssues.length : Int) * 8 ∧
    (analyzeChecks d url).performanceScore
        = 100 - ((analyzeChecks d url).performanceIssues.length : Int) * 8 := by
  have hm := metaIssuesOf_length_le d
  have hc := contentIssuesOf_length_le d url
  have hp := performanceIssuesOf_length_le d
  refine ⟨?_, ?_, ?_⟩ <;>
    simp only [analyzeChecks] <;>
    rw [max_eq_right (by omega)]

/-! ### C4 -/

/-- Claim C4: every returned score lies in [0, 100], and the clamp at 0 is
unreachable: `metaIssues` has at most 9 entries, `contentIssues` at most 8
(the two H1 issues are mutually exclusive), `performanceIssues` at most 6, so
`metaScore ≥ 10`, `contentScore ≥ 36` and `performanceScore ≥ 52`. -/
theorem analyzeChecks_score_bounds (d : ParsedDoc) (url : String) :
    (0 ≤ (analyzeChecks d url).metaScore ∧ (analyzeChecks d url).metaScore ≤ 100) ∧
    (0 ≤ (analyzeChecks d url).contentScore ∧ (analyzeChecks d url).contentScore ≤ 100) ∧
    (0 ≤ (analyzeChecks d url).performanceScore ∧
      (analyzeChecks d url).performanceScore ≤ 100) ∧
    (analyzeChecks d url).metaIssues.length ≤ 9 ∧
    (analyzeChecks d url).contentIssues.length ≤ 8 ∧
    (analyzeChecks d url).performanceIssues.length ≤ 6 ∧
    10 ≤ (analyzeChecks d url).metaScore ∧
    36 ≤ (analyzeChecks d url).contentScore ∧
    52 ≤ (analyzeChecks d url).performanceScore := by
  have hm := metaIssuesOf_length_le d
  have hc := contentIssuesOf_length_le d url
  have hp := performanceIssuesOf_length_le d
  simp only [analyzeChecks]
  refine ⟨⟨?_, ?_⟩, ⟨?_, ?_⟩, ⟨?_, ?_⟩, hm, hc, hp, ?_, ?_, ?_⟩ <;>
    first
      | (apply le_max_left)
      | (rw [max_eq_right (by omega)]; omega)

/-! ### Membership in the issue lists: helper lemmas -/

lemma mem_ite_singleton (s t : String) (c : Prop) [Decidable c] :
    s ∈ (if c then [t] else ([] : List String)) ↔ c ∧ s = t := by
  split <;> simp_all

lemma mem_ite_chain3 (s t1 t2 t3 : String) (c1 c2 c3 : Prop)
    [Decidable c1] [Decidable c2] [Decidable c3] :
    s ∈ (if c1 then [t1] else if c2 then [t2] else if c3 then [t3]
          else ([] : List String)) ↔
      (c1 ∧ s = t1) ∨ (¬c1 ∧ c2 ∧ s = t2) ∨ (¬c1 ∧ ¬c2 ∧ c3 ∧ s = t3) := by
  split_ifs <;> simp_all

lemma append_ne_of_not_suffix (a b c : String) (h : ¬ b.data <:+ c.data) : a ++ b ≠ c := by
  intro he
  exact h ⟨a.data, by rw [← String.data_append, he]⟩

lemma append_ne_append_of_suffix_free (a b c d : String)
    (h1 : ¬ b.data <:+ d.data) (h2 : ¬ d.data <:+ b.data) : a ++ b ≠ c ++ d := by
  intro he
  have h := congrArg String.data he
  rw [String.data_append, String.data_append] at h
  rcases List.append_eq_append_iff.mp h with ⟨a', _, hb⟩ | ⟨c', _, hd⟩
  · exact h2 ⟨a', hb.symm⟩
  · exact h1 ⟨c', hd.symm⟩

lemma append_ne_append_of_prefix_free (a b c d : String)
    (h1 : ¬ a.data <+: c.data) (h2 : ¬ c.data <+: a.data) : a ++ b ≠ c ++ d := by
  intro he
  have h := congrArg String.data he
  rw [String.data_append, String.data_append] at h
  rcases List.append_eq_append_iff.mp h with ⟨a', ha, _⟩ | ⟨c', hc, _⟩
  · exact h1 ⟨a', ha.symm⟩
  · exact h2 ⟨c', hc.symm⟩

/-! ### Membership in `metaIssuesOf` -/

lemma mem_meta_missing_title (d : ParsedDoc) :
    "Missing title tag" ∈ metaIssuesOf d ↔ (jsTrim d.titleText).data.isEmpty = true := by
  simp only [metaIssuesOf, List.mem_append, mem_ite_singleton, mem_ite_chain3]
  simp +decide

lemma mem_meta_title_short (d : ParsedDoc) :
    "Title is too short (should be at least 30 characters)" ∈ metaIssuesOf d ↔
      ¬ (jsTrim d.titleText).data.isEmpty = true ∧ jsLength (jsTrim d.titleText) < 30 := by
  simp only [metaIssuesOf, List.mem_append, mem_ite_singleton, mem_ite_chain3]
  simp +decide

lemma mem_meta_title_long (d : ParsedDoc) :
    "Title is too long (should be less than 60 characters)" ∈ metaIssuesOf d ↔
      ¬ (jsTrim d.titleText).data.isEmpty = true ∧
      ¬ jsLength (jsTrim d.titleText) < 30 ∧ jsLength (jsTrim d.titleText) > 60 := by
  simp only [metaIssuesOf, List.mem_append, mem_ite_singleton, mem_ite_chain3]
  simp +decide

lemma mem_meta_missing_description (d : ParsedDoc) :
    "Missing meta description" ∈ metaIssuesOf d ↔
      jsFalsy (d.description.map jsTrim) = true := by
  simp only [metaIssuesOf, List.mem_append, mem_ite_singleton, mem_ite_chain3]
  simp +decide

lemma mem_meta_description_short (d : ParsedDoc) :
    "Meta description is too short (should be at least 120 characters)" ∈ metaIssuesOf d ↔
      ¬ jsFalsy (d.description.map jsTrim) = true ∧
      jsLength ((d.description.map jsTrim).getD "") < 120 := by
  simp only [metaIssuesOf, List.mem_append, mem_ite_singleton, mem_ite_chain3]
  simp +decide

lemma mem_meta_description_long (d : ParsedDoc) :
    "Meta description is too long (should be less than 160 characters)" ∈ metaIssuesOf d ↔
      ¬ jsFalsy (d.description.map jsTrim) = true ∧
      ¬ jsLength ((d.description.map jsTrim).getD "") < 120 ∧
      jsLength ((d.description.map jsTrim).getD "") > 160 := by
  simp only [metaIssuesOf, List.mem_append, mem_ite_singleton, mem_ite_chain3]
  simp +decide

lemma mem_meta_missing_keywords (d : ParsedDoc) :
    "Missing meta keywords" ∈ metaIssuesOf d ↔ jsFalsy (d.keywords.map jsTrim) = true := by
  simp only [metaIssuesOf, List.mem_append, mem_ite_singleton, mem_ite_chain3]
  simp +decide

lemma mem_meta_missing_robots (d : ParsedDoc) :
    "Missing robots meta tag" ∈ metaIssuesOf d ↔ jsFalsy (d.robots.map jsTrim) = true := by
  simp only [metaIssuesOf, List.mem_append, mem_ite_singleton, mem_ite_chain3]
  simp +decide

lemma mem_meta_missing_canonical (d : ParsedDoc) :
    "Missing canonical URL" ∈ metaIssuesOf d ↔ jsFalsy (d.canonical.map jsTrim) = true := by
  simp only [metaIssuesOf, List.mem_append, mem_ite_singleton, mem_ite_chain3]
  simp +decide

lemma mem_meta_missing_viewport (d : ParsedDoc) :
    "Missing viewport meta tag" ∈ metaIssuesOf d ↔ jsFalsy (d.viewport.map jsTrim) = true := by
  simp only [metaIssuesOf, List.mem_append, mem_ite_singleton, mem_ite_chain3]
  simp +decide

lemma mem_meta_missing_charset (d : ParsedDoc) :
    "Missing charset meta tag" ∈ metaIssuesOf d ↔ jsFalsy (d.charset.map jsTrim) = true := by
  simp only [metaIssuesOf, List.mem_append, mem_ite_singleton, mem_ite_chain3]
  simp +decide

lemma mem_meta_missing_og (d : ParsedDoc) :
    "Missing Open Graph tags" ∈ metaIssuesOf d ↔ d.ogTagCount = 0 := by
  simp only [metaIssuesOf, List.mem_append, mem_ite_singleton, mem_ite_chain3]
  simp +decide

lemma mem_meta_missing_twitter (d : ParsedDoc) :
    "Missing Twitter Card tags" ∈ metaIssuesOf d ↔ d.twitterTagCount = 0 := by
  simp only [metaIssuesOf, List.mem_append, mem_ite_singleton, mem_ite_chain3]
  simp +decide

/-! ### Membership in `contentIssuesOf` -/

lemma mem_content_missing_h1 (d : ParsedDoc) (url : String) :
    "Missing H1 heading" ∈ contentIssuesOf d url ↔ d.h1Count = 0 := by
  have k : toString (imagesWithoutAltOf d) ++ " images missing alt text"
      ≠ "Missing H1 heading" := append_ne_of_not_suffix _ _ _ (by decide)
  simp only [contentIssuesOf, List.mem_append, mem_ite_singleton]
  simp +decide [Ne.symm k]

lemma mem_content_multiple_h1 (d : ParsedDoc) (url : String) :
    "Multiple H1 headings detected (should have exactly one)" ∈ contentIssuesOf d url ↔
      d.h1Count > 1 := by
  have k : toString (imagesWithoutAltOf d) ++ " images missing alt text"
      ≠ "Multiple H1 headings detected (should have exactly one)" :=
    append_ne_of_not_suffix _ _ _ (by decide)
  simp only [contentIssuesOf, List.mem_append, mem_ite_singleton]
  simp +decide [Ne.symm k]

lemma mem_content_images_alt (d : ParsedDoc) (url : String) :
    (toString (imagesWithoutAltOf d) ++ " images missing alt text") ∈ contentIssuesOf d url ↔
      imagesWithoutAltOf d > 0 := by
  have k1 : toString (imagesWithoutAltOf d) ++ " images missing alt text"
      ≠ "Missing H1 heading" := append_ne_of_not_suffix _ _ _ (by decide)
  have k2 : toString (imagesWithoutAltOf d) ++ " images missing alt text"
      ≠ "Multiple H1 headings detected (should have exactly one)" :=
    append_ne_of_not_suffix _ _ _ (by decide)
  have k3 : toString (imagesWithoutAltOf d) ++ " images missing alt text"
      ≠ "No external links found (consider adding relevant outbound links)" :=
    append_ne_of_not_suffix _ _ _ (by decide)
  have k4 : toString (imagesWithoutAltOf d) ++ " images missing alt text"
      ≠ "Content length is too short (should be at least 300 words)" :=
    append_ne_of_not_suffix _ _ _ (by decide)
  have k5 : toString (imagesWithoutAltOf d) ++ " images missing alt text"
      ≠ "Too few paragraphs (should have at least 3 paragraphs)" :=
    append_ne_of_not_suffix _ _ _ (by decide)
  have k6 : toString (imagesWithoutAltOf d) ++ " images missing alt text"
      ≠ "Too few headings (should use proper heading hierarchy)" :=
    append_ne_of_not_suffix _ _ _ (by decide)
  have k7 : toString (imagesWithoutAltOf d) ++ " images missing alt text"
      ≠ "No lists found (consider using bullet points or numbered lists)" :=
    append_ne_of_not_suffix _ _ _ (by decide)
  have k8 : toString (imagesWithoutAltOf d) ++ " images missing alt text"
      ≠ "No tables found (consider using tables for structured data)" :=
    append_ne_of_not_suffix _ _ _ (by decide)
  simp only [contentIssuesOf, List.mem_append, mem_ite_singleton]
  simp [k1, k2, k3, k4, k5, k6, k7, k8]

lemma mem_content_no_external_links (d : ParsedDoc) (url : String) :
    "No external links found (consider adding relevant outbound links)"
      ∈ contentIssuesOf d url ↔ externalLinksOf d url = 0 := by
  have k : toString (imagesWithoutAltOf d) ++ " images missing alt text"
      ≠ "No external links found (consider adding relevant outbound links)" :=
    append_ne_of_not_suffix _ _ _ (by decide)
  simp only [contentIssuesOf, List.mem_append, mem_ite_singleton]
  simp +decide [Ne.symm k]

lemma mem_content_too_short (d : ParsedDoc) (url : String) :
    "Content length is too short (should be at least 300 words)" ∈ contentIssuesOf d url ↔
      wordCountOf d.bodyText < 300 := by
  have k : toString (imagesWithoutAltOf d) ++ " images missing alt text"
      ≠ "Content length is too short (should be at least 300 words)" :=
    append_ne_of_not_suffix _ _ _ (by decide)
  simp only [contentIssuesOf, List.mem_append, mem_ite_singleton]
  simp +decide [Ne.symm k]

lemma mem_content_few_paragraphs (d : ParsedDoc) (url : String) :
    "Too few paragraphs (should have at least 3 paragraphs)" ∈ contentIssuesOf d url ↔
      d.paragraphCount < 3 := by
  have k : toString (imagesWithoutAltOf d) ++ " images missing alt text"
      ≠ "Too few paragraphs (should have at least 3 paragraphs)" :=
    append_ne_of_not_suffix _ _ _ (by decide)
  simp only [contentIssuesOf, List.mem_append, mem_ite_singleton]
  simp +decide [Ne.symm k]

lemma mem_content_few_headings (d : ParsedDoc) (url : String) :
    "Too few headings (should use proper heading hierarchy)" ∈ contentIssuesOf d url ↔
      d.headingCount < 2 := by
  have k : toString (imagesWithoutAltOf d) ++ " images missing alt text"
      ≠ "Too few headings (should use proper heading hierarchy)" :=
    append_ne_of_not_suffix _ _ _ (by decide)
  simp only [contentIssuesOf, List.mem_append, mem_ite_singleton]
  simp +decide [Ne.symm k]

lemma mem_content_no_lists (d : ParsedDoc) (url : String) :
    "No lists found (consider using bullet points or numbered lists)"
      ∈ contentIssuesOf d url ↔ d.listCount = 0 := by
  have k : toString (imagesWithoutAltOf d) ++ " images missing alt text"
      ≠ "No lists found (consider using bullet points or numbered lists)" :=
    append_ne_of_not_suffix _ _ _ (by decide)
  simp only [contentIssuesOf, List.mem_append, mem_ite_singleton]
  simp +decide [Ne.symm k]

lemma mem_content_no_tables (d : ParsedDoc) (url : String) :
    "No tables found (consider using tables for structured data)" ∈ contentIssuesOf d url ↔
      d.tableCount = 0 := by
  have k : toString (imagesWithoutAltOf d) ++ " images missing alt text"
      ≠ "No tables found (consider using tables for structured data)" :=
    append_ne_of_not_suffix _ _ _ (by decide)
  simp only [contentIssuesOf, List.mem_append, mem_ite_singleton]
  simp +decide [Ne.symm k]

/-! ### Membership in `performanceIssuesOf` -/

lemma perf_css_ne_js (n m : Nat) :
    "High number of CSS files (" ++ toString n ++ " found, recommend combining)"
      ≠ "High number of JavaScript files (" ++ toString m ++ " found, recommend combining)" := by
  have h := append_ne_append_of_prefix_free "High number of CSS files ("
    (toString n ++ " found, recommend combining)")
    "High number of JavaScript files ("
    (toString m ++ " found, recommend combining)") (by decide) (by decide)
  intro he
  apply h
  rw [← String.append_assoc, ← String.append_assoc]
  exact he

lemma mem_perf_css (d : ParsedDoc) :
    ("High number of CSS files (" ++ toString d.cssFileCount ++ " found, recommend combining)")
      ∈ performanceIssuesOf d ↔ d.cssFileCount > 5 := by
  have k1 := perf_css_ne_js d.cssFileCount d.jsFileCount
  have k2 := append_ne_append_of_suffix_free
    ("High number of CSS files (" ++ toString d.cssFileCount) " found, recommend combining)"
    (toString d.inlineStyleCount) " inline styles found (recommend using external CSS)"
    (by decide) (by decide)
  have k3 := append_ne_append_of_suffix_free
    ("High number of CSS files (" ++ toString d.cssFileCount) " found, recommend combining)"
    (toString d.inlineScriptCount) " inline scripts found (recommend using external JS files)"
    (by decide) (by decide)
  have k4 := append_ne_append_of_suffix_free
    ("High number of CSS files (" ++ toString d.cssFileCount) " found, recommend combining)"
    (toString (largeImagesOf d)) " large images found (recommend optimizing)"
    (by decide) (by decide)
  have k5 := append_ne_append_of_suffix_free
    ("High number of CSS files (" ++ toString d.cssFileCount) " found, recommend combining)"
    (toString d.iframeCount) " iframes found (consider reducing for better performance)"
    (by decide) (by decide)
  simp only [performanceIssuesOf, List.mem_append, mem_ite_singleton]
  simp [k1, k2, k3, k4, k5]

lemma mem_perf_js (d : ParsedDoc) :
    ("High number of JavaScript files (" ++ toString d.jsFileCount ++ " found, recommend combining)")
      ∈ performanceIssuesOf d ↔ d.jsFileCount > 10 := by
  have k1 := (perf_css_ne_js d.cssFileCount d.jsFileCount).symm
  have k2 := append_ne_append_of_suffix_free
    ("High number of JavaScript files (" ++ toString d.jsFileCount) " found, recommend combining)"
    (toString d.inlineStyleCount) " inline styles found (recommend using external CSS)"
    (by decide) (by decide)
  have k3 := append_ne_append_of_suffix_free
    ("High number of JavaScript files (" ++ toString d.jsFileCount) " found, recommend combining)"
    (toString d.inlineScriptCount) " inline scripts found (recommend using external JS files)"
    (by decide) (by decide)
  have k4 := append_ne_append_of_suffix_free
    ("High number of JavaScript files (" ++ toString d.jsFileCount) " found, recommend combining)"
    (toString (largeImagesOf d)) " large images found (recommend optimizing)"
    (by decide) (by decide)
  have k5 := append_ne_append_of_suffix_free
    ("High number of JavaScript files (" ++ toString d.jsFileCount) " found, recommend combining)"
    (toString d.iframeCount) " iframes found (consider reducing for better performance)"
    (by decide) (by decide)
  simp only [performanceIssuesOf, List.mem_append, mem_ite_singleton]
  simp [k1, k2, k3, k4, k5]

lemma mem_perf_inline_styles (d : ParsedDoc) :
    (toString d.inlineStyleCount ++ " inline styles found (recommend using external CSS)")
      ∈ performanceIssuesOf d ↔ d.inlineStyleCount > 5 := by
  have k1 := append_ne_append_of_suffix_free
    (toString d.inlineStyleCount) " inline styles found (recommend using external CSS)"
    ("High number of CSS files (" ++ toString d.cssFileCount) " found, recommend combining)"
    (by decide) (by decide)
  have k2 := append_ne_append_of_suffix_free
    (toString d.inlineStyleCount) " inline styles found (recommend using external CSS)"
    ("High number of JavaScript files (" ++ toString d.jsFileCount) " found, recommend combining)"
    (by decide) (by decide)
  have k3 := append_ne_append_of_suffix_free
    (toString d.inlineStyleCount) " inline styles found (recommend using external CSS)"
    (toString d.inlineScriptCount) " inline scripts found (recommend using external JS files)"
    (by decide) (by decide)
  have k4 := append_ne_append_of_suffix_free
    (toString d.inlineStyleCount) " inline styles found (recommend using external CSS)"
    (toString (largeImagesOf d)) " large images found (recommend optimizing)"
    (by decide) (by decide)
  have k5 := append_ne_append_of_suffix_free
    (toString d.inlineStyleCount) " inline styles found (recommend using external CSS)"
    (toString d.iframeCount) " iframes found (consider reducing for better performance)"
    (by decide) (by decide)
  simp only [performanceIssuesOf, List.mem_append, mem_ite_singleton]
  simp [k1, k2, k3, k4, k5]

lemma mem_perf_inline_scripts (d : ParsedDoc) :
    (toString d.inlineScriptCount ++ " inline scripts found (recommend using external JS files)")
      ∈ performanceIssuesOf d ↔ d.inlineScriptCount > 5 := by
  have k1 := append_ne_append_of_suffix_free
    (toString d.inlineScriptCount) " inline scripts found (recommend using external JS files)"
    ("High number of CSS files (" ++ toString d.cssFileCount) " found, recommend combining)"
    (by decide) (by decide)
  have k2 := append_ne_append_of_suffix_free
    (toString d.inlineScriptCount) " inline scripts found (recommend using external JS files)"
    ("High number of JavaScript files (" ++ toString d.jsFileCount) " found, recommend combining)"
    (by decide) (by decide)
  have k3 := append_ne_append_of_suffix_free
    (toString d.inlineScriptCount) " inline scripts found (recommend using external JS files)"
    (toString d.inlineStyleCount) " inline styles found (recommend using external CSS)"
    (by decide) (by decide)
  have k4 := append_ne_append_of_suffix_free
    (toString d.inlineScriptCount) " inline scripts found (recommend using external JS files)"
    (toString (largeImagesOf d)) " large images found (recommend optimizing)"
    (by decide) (by decide)
  have k5 := append_ne_append_of_suffix_free
    (toString d.inlineScriptCount) " inline scripts found (recommend using external JS files)"
    (toString d.iframeCount) " iframes found (consider reducing for better performance)"
    (by decide) (by decide)
  simp only [performanceIssuesOf, List.mem_append, mem_ite_singleton]
  simp [k1, k2, k3, k4, k5]

lemma mem_perf_large_images (d : ParsedDoc) :
    (toString (largeImagesOf d) ++ " large images found (recommend optimizing)")
      ∈ performanceIssuesOf d ↔ largeImagesOf d > 10 := by
  have k1 := append_ne_append_of_suffix_free
    (toString (largeImagesOf d)) " large images found (recommend optimizing)"
    ("High number of CSS files (" ++ toString d.cssFileCount) " found, recommend combining)"
    (by decide) (by decide)
  have k2 := append_ne_append_of_suffix_free
    (toString (largeImagesOf d)) " large images found (recommend optimizing)"
    ("High number of JavaScript files (" ++ toString d.jsFileCount) " found, recommend combining)"
    (by decide) (by decide)
  have k3 := append_ne_append_of_suffix_free
    (toString (largeImagesOf d)) " large images found (recommend optimizing)"
    (toString d.inlineStyleCount) " inline styles found (recommend using external CSS)"
    (by decide) (by decide)
  have k4 := append_ne_append_of_suffix_free
    (toString (largeImagesOf d)) " large images found (recommend optimizing)"
    (toString d.inlineScriptCount) " inline scripts found (recommend using external JS files)"
    (by decide) (by decide)
  have k5 := append_ne_append_of_suffix_free
    (toString (largeImagesOf d)) " large images found (recommend optimizing)"
    (toString d.iframeCount) " iframes found (consider reducing for better performance)"
    (by decide) (by decide)
  simp only [performanceIssuesOf, List.mem_append, mem_ite_singleton]
  simp [k1, k2, k3, k4, k5]

lemma mem_perf_iframes (d : ParsedDoc) :
    (toString d.iframeCount ++ " iframes found (consider reducing for better performance)")
      ∈ performanceIssuesOf d ↔ d.iframeCount > 2 := by
  have k1 := append_ne_append_of_suffix_free
    (toString d.iframeCount) " iframes found (consider reducing for better performance)"
    ("High number of CSS files (" ++ toString d.cssFileCount) " found, recommend combining)"
    (by decide) (by decide)
  have k2 := append_ne_append_of_suffix_free
    (toString d.iframeCount) " iframes found (consider reducing for better performance)"
    ("High number of JavaScript files (" ++ toString d.jsFileCount) " found, recommend combining)"
    (by decide) (by decide)
  have k3 := append_ne_append_of_suffix_free
    (toString d.iframeCount) " iframes found (consider reducing for better performance)"
    (toString d.inlineStyleCount) " inline styles found (recommend using external CSS)"
    (by decide) (by decide)
  have k4 := append_ne_append_of_suffix_free
    (toString d.iframeCount) " iframes found (consider reducing for better performance)"
    (toString d.inlineScriptCount) " inline scripts found (recommend using external JS files)"
    (by decide) (by decide)
  have k5 := append_ne_append_of_suffix_free
    (toString d.iframeCount) " iframes found (consider reducing for better performance)"
    (toString (largeImagesOf d)) " large images found (recommend optimizing)"
    (by decide) (by decide)
  simp only [performanceIssuesOf, List.mem_append, mem_ite_singleton]
  simp [k1, k2, k3, k4, k5]

/-! ### C5 -/

/-- Claim C5: every heuristic check is flat and independent — for each issue
string of each dimension, membership in that dimension's issue list is
equivalent to the check's own boolean/threshold predicate over the parsed
document (for the chained title/description checks, the predicate of the
check's own `else if` branch), and never depends on whether any other check
triggered. -/
theorem checks_flat_and_independent (d : ParsedDoc) (url : String) :
    ("Missing title tag" ∈ metaIssuesOf d ↔ (jsTrim d.titleText).data.isEmpty = true) ∧
    ("Title is too short (should be at least 30 characters)" ∈ metaIssuesOf d ↔
      ¬ (jsTrim d.titleText).data.isEmpty = true ∧ jsLength (jsTrim d.titleText) < 30) ∧
    ("Title is too long (should be less than 60 characters)" ∈ metaIssuesOf d ↔
      ¬ (jsTrim d.titleText).data.isEmpty = true ∧
      ¬ jsLength (jsTrim d.titleText) < 30 ∧ jsLength (jsTrim d.titleText) > 60) ∧
    ("Missing meta description" ∈ metaIssuesOf d ↔
      jsFalsy (d.description.map jsTrim) = true) ∧
    ("Meta description is too short (should be at least 120 characters)" ∈ metaIssuesOf d ↔
      ¬ jsFalsy (d.description.map jsTrim) = true ∧
      jsLength ((d.description.map jsTrim).getD "") < 120) ∧
    ("Meta description is too long (should be less than 160 characters)" ∈ metaIssuesOf d ↔
      ¬ jsFalsy (d.description.map jsTrim) = true ∧
      ¬ jsLength ((d.description.map jsTrim).getD "") < 120 ∧
      jsLength ((d.description.map jsTrim).getD "") > 160) ∧
    ("Missing meta keywords" ∈ metaIssuesOf d ↔ jsFalsy (d.keywords.map jsTrim) = true) ∧
    ("Missing robots meta tag" ∈ metaIssuesOf d ↔ jsFalsy (d.robots.map jsTrim) = true) ∧
    ("Missing canonical URL" ∈ metaIssuesOf d ↔ jsFalsy (d.canonical.map jsTrim) = true) ∧
    ("Missing viewport meta tag" ∈ metaIssuesOf d ↔ jsFalsy (d.viewport.map jsTrim) = true) ∧
    ("Missing charset meta tag" ∈ metaIssuesOf d ↔ jsFalsy (d.charset.map jsTrim) = true) ∧
    ("Missing Open Graph tags" ∈ metaIssuesOf d ↔ d.ogTagCount = 0) ∧
    ("Missing Twitter Card tags" ∈ metaIssuesOf d ↔ d.twitterTagCount = 0) ∧
    ("Missing H1 heading" ∈ contentIssuesOf d url ↔ d.h1Count = 0) ∧
    ("Multiple H1 headings detected (should have exactly one)" ∈ contentIssuesOf d url ↔
      d.h1Count > 1) ∧
    ((toString (imagesWithoutAltOf d) ++ " images missing alt text") ∈ contentIssuesOf d url ↔
      imagesWithoutAltOf d > 0) ∧
    ("No external links found (consider adding relevant outbound links)"
        ∈ contentIssuesOf d url ↔ externalLinksOf d url = 0) ∧
    ("Content length is too short (should be at least 300 words)" ∈ contentIssuesOf d url ↔
      wordCountOf d.bodyText < 300) ∧
    ("Too few paragraphs (should have at least 3 paragraphs)" ∈ contentIssuesOf d url ↔
      d.paragraphCount < 3) ∧
    ("Too few headings (should use proper heading hierarchy)" ∈ contentIssuesOf d url ↔
      d.headingCount < 2) ∧
    ("No lists found (consider using bullet points or numbered lists)"
        ∈ contentIssuesOf d url ↔ d.listCount = 0) ∧
    ("No tables found (consider using tables for structured data)" ∈ contentIssuesOf d url ↔
      d.tableCount = 0) ∧
    (("High number of CSS files (" ++ toString d.cssFileCount ++ " found, recommend combining)")
        ∈ performanceIssuesOf d ↔ d.cssFileCount > 5) ∧
    (("High number of JavaScript files (" ++ toString d.jsFileCount ++ " found, recommend combining)")
        ∈ performanceIssuesOf d ↔ d.jsFileCount > 10) ∧
    ((toString d.inlineStyleCount ++ " inline styles found (recommend using external CSS)")
        ∈ performanceIssuesOf d ↔ d.inlineStyleCount > 5) ∧
    ((toString d.inlineScriptCount ++ " inline scripts found (recommend using external JS files)")
        ∈ performanceIssuesOf d ↔ d.inlineScriptCount > 5) ∧
    ((toString (largeImagesOf d) ++ " large images found (recommend optimizing)")
        ∈ performanceIssuesOf d ↔ largeImagesOf d > 10) ∧
    ((toString d.iframeCount ++ " iframes found (consider reducing for better performance)")
        ∈ performanceIssuesOf d ↔ d.iframeCount > 2) :=
  ⟨mem_meta_missing_title d, mem_meta_title_short d, mem_meta_title_long d,
   mem_meta_missing_description d, mem_meta_description_short d, mem_meta_description_long d,
   mem_meta_missing_keywords d, mem_meta_missing_robots d, mem_meta_missing_canonical d,
   mem_meta_missing_viewport d, mem_meta_missing_charset d, mem_meta_missing_og d,
   mem_meta_missing_twitter d, mem_content_missing_h1 d url, mem_content_multiple_h1 d url,
   mem_content_images_alt d url, mem_content_no_external_links d url,
   mem_content_too_short d url, mem_content_few_paragraphs d url,
   mem_content_few_headings d url, mem_content_no_lists d url, mem_content_no_tables d url,
   mem_perf_css d, mem_perf_js d, mem_perf_inline_styles d, mem_perf_inline_scripts d,
   mem_perf_large_images d, mem_perf_iframes d⟩

/-! ### C6 -/

/-- Claim C6: when the fetch succeeds, `analyzeSeo` resolves with a result that
scores exactly three dimensions — metadata, content structure and performance —
each dimension being a numeric score paired with its list of issue strings, and
the record consists of exactly those six fields. -/
theorem analyzeSeo_three_dimensions (oracle : String → FetchOutcome)
    (parse : String → ParsedDoc) (url : String) (html : String)
    (h : (fetchWithFallback oracle url).2 = .ok html) :
    ∃ r, analyzeSeo oracle parse url = .ok r ∧
      r.metaIssues = metaIssuesOf (parse html) ∧
      r.contentIssues = contentIssuesOf (parse html) url ∧
      r.performanceIssues = performanceIssuesOf (parse html) ∧
      r.metaScore = max 0 (100 - (r.metaIssues.length : Int) * 10) ∧
      r.contentScore = max 0 (100 - (r.contentIssues.length : Int) * 8) ∧
      r.performanceScore = max 0 (100 - (r.performanceIssues.length : Int) * 8) ∧
      r = ⟨r.metaScore, r.metaIssues, r.contentScore, r.contentIssues,
           r.performanceScore, r.performanceIssues⟩ := by
  refine ⟨analyzeChecks (parse html) url, ?_, rfl, rfl, rfl, rfl, rfl, rfl, rfl⟩
  simp [analyzeSeo, h]

/-- Witness for C6 at a concrete always-succeeding oracle. -/
theorem analyzeSeo_three_dimensions_witness :
    ∃ r, analyzeSeo oracleAlwaysOk (fun _ => emptyDoc) "https://a.com" = .ok r ∧
      r.metaIssues = metaIssuesOf ((fun _ => emptyDoc) "<html></html>") ∧
      r.contentIssues = contentIssuesOf ((fun _ => emptyDoc) "<html></html>") "https://a.com" ∧
      r.performanceIssues = performanceIssuesOf ((fun _ => emptyDoc) "<html></html>") ∧
      r.metaScore = max 0 (100 - (r.metaIssues.length : Int) * 10) ∧
      r.contentScore = max 0 (100 - (r.contentIssues.length : Int) * 8) ∧
      r.performanceScore = max 0 (100 - (r.performanceIssues.length : Int) * 8) ∧
      r = ⟨r.metaScore, r.metaIssues, r.contentScore, r.contentIssues,
           r.performanceScore, r.performanceIssues⟩ :=
  analyzeSeo_three_dimensions oracleAlwaysOk (fun _ => emptyDoc) "https://a.com"
    "<html></html>" (by rfl)

/-! ### C8 -/

/-- Claim C8: the analysis phase of `analyzeSeo` terminates on every finite
parsed document — in this embedding it is a total structurally recursive
function, witnessed by its value existing — and its only data-dependent work is
linear scans: each filter-derived counter is bounded by the length of the node
list it scans once, and each issue list is bounded by its fixed number of
checks. -/
theorem analyzeChecks_terminates_linear (d : ParsedDoc) (url : String) :
    ∃ r, analyzeChecks d url = r ∧
      imagesWithoutAltOf d ≤ d.images.length ∧
      largeImagesOf d ≤ d.images.length ∧
      externalLinksOf d url ≤ d.links.length ∧
      r.metaIssues.length ≤ 9 ∧
      r.contentIssues.length ≤ 8 ∧
      r.performanceIssues.length ≤ 6 :=
  ⟨analyzeChecks d url, rfl,
   List.length_filter_le _ _, List.length_filter_le _ _, List.length_filter_le _ _,
   metaIssuesOf_length_le d, contentIssuesOf_length_le d url,
   performanceIssuesOf_length_le d⟩

/-! ### C10 -/

/-- Claim C10: for every input string that does not start with `http://` or
`https://`, `handleAnalysis` sets the invalid-URL error message and returns
early: `analyzeSeo` is not invoked and the rest of the state — in particular
the results — is unchanged. -/
theorem handleAnalysis_invalid_url (analyze : String → Except String SeoAnalysisResult)
    (s : UiState)
    (h1 : jsStartsWith s.url "http://" = false)
    (h2 : jsStartsWith s.url "https://" = false) :
    (handleAnalysis analyze s).1.error
        = "Please enter a valid URL starting with http:// or https://" ∧
    (handleAnalysis analyze s).1.results = s.results ∧
    (handleAnalysis analyze s).1.loading = s.loading ∧
    (handleAnalysis analyze s).1.url = s.url ∧
    (handleAnalysis analyze s).2 = false := by
  simp [handleAnalysis, h1, h2]

/-- A concrete pre-call UI state with a scheme-less URL. -/
def uiNoScheme : UiState :=
  { url := "example.com", results := none, loading := false, error := "" }

/-- Witness for C10 at a concrete scheme-less input. -/
theorem handleAnalysis_invalid_url_witness :
    (handleAnalysis (fun _ => .error "unreachable") uiNoScheme).1.error
        = "Please enter a valid URL starting with http:// or https://" ∧
    (handleAnalysis (fun _ => .error "unreachable") uiNoScheme).1.results
        = uiNoScheme.results ∧
    (handleAnalysis (fun _ => .error "unreachable") uiNoScheme).1.loading
        = uiNoScheme.loading ∧
    (handleAnalysis (fun _ => .error "unreachable") uiNoScheme).1.url = uiNoScheme.url ∧
    (handleAnalysis (fun _ => .error "unreachable") uiNoScheme).2 = false :=
  handleAnalysis_invalid_url (fun _ => .error "unreachable") uiNoScheme
    (by decide) (by decide)
